import Mathlib

/-!
Verification development for the reconciliation core of the
cluster-api-provider-aws slice: the provider-config codec contract, the
MachineSet annotation reconciler (`machineset` package), and the guest
cluster scope (`pkg/cloud/scope/guestcluster.go`).

Go values are embedded shallowly: pointers become `Option`, Go maps become
association lists with Go's replace-on-insert semantics, fallible calls
return `Except`, and the reconciler's interaction with the external store is
made explicit (the fetch outcome is an input, the patch calls performed are
an output).
-/

namespace CAPA

/-- Wire token of the opaque provider-config payload.  The spec places the
exact wire format out of scope ("exact wire format is provider-specific and
out of scope, but the marker-based version dispatch contract is mandatory"),
so the byte payload is abstracted as a stream of primitive tokens. -/
inductive Wire where
  | natW (n : Nat)
  | strW (s : String)
  | boolW (b : Bool)
deriving DecidableEq, Repr

/-- Modelled from the spec: a name/values filter used for AMI, subnet and
security-group selection inside the provider configuration (the
`awsproviderconfig` API types live outside the provided source slice). -/
structure Filter where
  name : String
  values : List String
deriving DecidableEq, Repr

/-- Modelled from the spec: a reference to an AWS resource by filters. -/
structure AWSResourceReference where
  filters : List Filter
deriving DecidableEq, Repr

/-- Modelled from the spec: a reference to a named secret object. -/
structure LocalObjectReference where
  name : String
deriving DecidableEq, Repr

/-- Modelled from the spec: region and availability-zone placement. -/
structure Placement where
  region : String
  availabilityZone : String
deriving DecidableEq, Repr

/-- Modelled from the spec: a tag name/value pair. -/
structure TagSpecification where
  name : String
  value : String
deriving DecidableEq, Repr

/-- Modelled from the spec: the strongly-typed, schema-versioned provider
configuration value (AMI selection filters, instance type, placement,
subnet and security-group filters, tags, credentials-secret reference,
optional public-IP flag, optional user-data-secret reference). -/
structure AWSMachineProviderConfig where
  ami : AWSResourceReference
  credentialsSecret : Option LocalObjectReference
  instanceType : String
  placement : Placement
  subnet : AWSResourceReference
  tags : List TagSpecification
  securityGroups : List AWSResourceReference
  publicIP : Option Bool
  userDataSecret : Option LocalObjectReference
deriving DecidableEq, Repr

/-- Modelled from the spec: the two coexisting schema versions the codec
supports (the source slice imports both `v1alpha1` and `v1beta1`). -/
inductive SchemaVersion where
  | v1alpha1
  | v1beta1
deriving DecidableEq, Repr

/-- The apiVersion part of the embedded `{apiVersion, kind}` marker. -/
def apiVersionString : SchemaVersion → String
  | .v1alpha1 => "awsproviderconfig.openshift.io/v1alpha1"
  | .v1beta1 => "awsproviderconfig.openshift.io/v1beta1"

/-- The kind part of the embedded `{apiVersion, kind}` marker. -/
def kindString : String := "AWSMachineProviderConfig"

/-- Encode a string as a single wire token. -/
def encString (s : String) : List Wire := [.strW s]

/-- Encode a boolean as a single wire token. -/
def encBool (b : Bool) : List Wire := [.boolW b]

/-- Encode a list as a length token followed by the encoded elements. -/
def encList (enc : α → List Wire) (l : List α) : List Wire :=
  .natW l.length :: (l.map enc).flatten

/-- Encode an optional value as a presence token followed by the value. -/
def encOption (enc : α → List Wire) : Option α → List Wire
  | none => [.natW 0]
  | some a => .natW 1 :: enc a

def encFilter (f : Filter) : List Wire :=
  encString f.name ++ encList encString f.values

def encAWSResourceReference (r : AWSResourceReference) : List Wire :=
  encList encFilter r.filters

def encLocalObjectReference (r : LocalObjectReference) : List Wire :=
  encString r.name

def encPlacement (p : Placement) : List Wire :=
  encString p.region ++ encString p.availabilityZone

def encTagSpecification (t : TagSpecification) : List Wire :=
  encString t.name ++ encString t.value

/-- Modelled from the spec: the per-version body serialization of the
provider configuration (the two schemas serialize the same fields; the
`v1alpha1` schema orders the instance type before the credentials-secret
reference, the `v1beta1` schema after). -/
def encConfigBody : SchemaVersion → AWSMachineProviderConfig → List Wire
  | .v1beta1, c =>
    encAWSResourceReference c.ami
      ++ encOption encLocalObjectReference c.credentialsSecret
      ++ encString c.instanceType
      ++ encPlacement c.placement
      ++ encAWSResourceReference c.subnet
      ++ encList encTagSpecification c.tags
      ++ encList encAWSResourceReference c.securityGroups
      ++ encOption encBool c.publicIP
      ++ encOption encLocalObjectReference c.userDataSecret
  | .v1alpha1, c =>
    encAWSResourceReference c.ami
      ++ encString c.instanceType
      ++ encOption encLocalObjectReference c.credentialsSecret
      ++ encPlacement c.placement
      ++ encAWSResourceReference c.subnet
      ++ encList encTagSpecification c.tags
      ++ encList encAWSResourceReference c.securityGroups
      ++ encOption encBool c.publicIP
      ++ encOption encLocalObjectReference c.userDataSecret

/-- Modelled from the spec: `Encode` tags its output with the embedded
`{apiVersion, kind}` marker of the given schema version, followed by the
serialized structure. -/
def Encode (ver : SchemaVersion) (c : AWSMachineProviderConfig) : List Wire :=
  encString (apiVersionString ver) ++ encString kindString ++ encConfigBody ver c

/-- Read one string token from the stream. -/
def readString : List Wire → Option (String × List Wire)
  | .strW s :: rest => some (s, rest)
  | _ => none

/-- Read one boolean token from the stream. -/
def readBool : List Wire → Option (Bool × List Wire)
  | .boolW b :: rest => some (b, rest)
  | _ => none

/-- Read one length/presence token from the stream. -/
def readNat : List Wire → Option (Nat × List Wire)
  | .natW n :: rest => some (n, rest)
  | _ => none

/-- Read exactly `n` consecutive elements with the element reader. -/
def readCount (rd : List Wire → Option (α × List Wire)) :
    Nat → List Wire → Option (List α × List Wire)
  | 0, ws => some ([], ws)
  | n + 1, ws =>
    match rd ws with
    | none => none
    | some (a, ws1) =>
      match readCount rd n ws1 with
      | none => none
      | some (as, ws2) => some (a :: as, ws2)

/-- Read a length-prefixed list. -/
def readList (rd : List Wire → Option (α × List Wire)) (ws : List Wire) :
    Option (List α × List Wire) :=
  match readNat ws with
  | none => none
  | some (n, ws1) => readCount rd n ws1

/-- Read a presence-prefixed optional value. -/
def readOption (rd : List Wire → Option (α × List Wire)) (ws : List Wire) :
    Option (Option α × List Wire) :=
  match readNat ws with
  | none => none
  | some (0, ws1) => some (none, ws1)
  | some (1, ws1) =>
    match rd ws1 with
    | none => none
    | some (a, ws2) => some (some a, ws2)
  | some (_ + 2, _) => none

def readFilter (ws : List Wire) : Option (Filter × List Wire) :=
  match readString ws with
  | none => none
  | some (n, ws1) =>
    match readList readString ws1 with
    | none => none
    | some (vs, ws2) => some (⟨n, vs⟩, ws2)

def readAWSResourceReference (ws : List Wire) :
    Option (AWSResourceReference × List Wire) :=
  match readList readFilter ws with
  | none => none
  | some (fs, ws1) => some (⟨fs⟩, ws1)

def readLocalObjectReference (ws : List Wire) :
    Option (LocalObjectReference × List Wire) :=
  match readString ws with
  | none => none
  | some (n, ws1) => some (⟨n⟩, ws1)

def readPlacement (ws : List Wire) : Option (Placement × List Wire) :=
  match readString ws with
  | none => none
  | some (r, ws1) =>
    match readString ws1 with
    | none => none
    | some (az, ws2) => some (⟨r, az⟩, ws2)

def readTagSpecification (ws : List Wire) :
    Option (TagSpecification × List Wire) :=
  match readString ws with
  | none => none
  | some (n, ws1) =>
    match readString ws1 with
    | none => none
    | some (v, ws2) => some (⟨n, v⟩, ws2)

/-- Modelled from the spec: the per-version body reader, matching the field
order of `encConfigBody` for the schema selected by the marker. -/
def readConfigBody (ver : SchemaVersion) (ws : List Wire) :
    Option (AWSMachineProviderConfig × List Wire) :=
  match ver with
  | .v1beta1 =>
    match readAWSResourceReference ws with
    | none => none
    | some (ami, ws) =>
      match readOption readLocalObjectReference ws with
      | none => none
      | some (cred, ws) =>
        match readString ws with
        | none => none
        | some (ityp, ws) =>
          match readPlacement ws with
          | none => none
          | some (plc, ws) =>
            match readAWSResourceReference ws with
            | none => none
            | some (sub, ws) =>
              match readList readTagSpecification ws with
              | none => none
              | some (tags, ws) =>
                match readList readAWSResourceReference ws with
                | none => none
                | some (sgs, ws) =>
                  match readOption readBool ws with
                  | none => none
                  | some (pip, ws) =>
                    match readOption readLocalObjectReference ws with
                    | none => none
                    | some (uds, ws) =>
                      some (⟨ami, cred, ityp, plc, sub, tags, sgs, pip, uds⟩, ws)
  | .v1alpha1 =>
    match readAWSResourceReference ws with
    | none => none
    | some (ami, ws) =>
      match readString ws with
      | none => none
      | some (ityp, ws) =>
        match readOption readLocalObjectReference ws with
        | none => none
        | some (cred, ws) =>
          match readPlacement ws with
          | none => none
          | some (plc, ws) =>
            match readAWSResourceReference ws with
            | none => none
            | some (sub, ws) =>
              match readList readTagSpecification ws with
              | none => none
              | some (tags, ws) =>
                match readList readAWSResourceReference ws with
                | none => none
                | some (sgs, ws) =>
                  match readOption readBool ws with
                  | none => none
                  | some (pip, ws) =>
                    match readOption readLocalObjectReference ws with
                    | none => none
                    | some (uds, ws) =>
                      some (⟨ami, cred, ityp, plc, sub, tags, sgs, pip, uds⟩, ws)

/-- Decode-time failure taxonomy of the codec per the spec: `SchemaError`
for an unrecognized version/kind marker, `MalformedPayloadError` when the
byte stream cannot be parsed under the matched schema. -/
inductive DecodeError where
  | schemaError (apiVersion kind : String)
  | malformedPayloadError
deriving DecidableEq, Repr

/-- Version dispatch purely from the embedded marker, never from
caller-supplied hints. -/
def versionOfMarker (apiVer kind : String) : Option SchemaVersion :=
  if kind = kindString then
    if apiVer = apiVersionString .v1alpha1 then some .v1alpha1
    else if apiVer = apiVersionString .v1beta1 then some .v1beta1
    else none
  else none

/-- Modelled from the spec: `Decode` reads the embedded `{apiVersion, kind}`
marker, dispatches on it, and parses the body under the matched schema. -/
def Decode (payload : List Wire) : Except DecodeError AWSMachineProviderConfig :=
  match readString payload with
  | none => .error .malformedPayloadError
  | some (apiVer, ws1) =>
    match readString ws1 with
    | none => .error .malformedPayloadError
    | some (kind, ws2) =>
      match versionOfMarker apiVer kind with
      | none => .error (.schemaError apiVer kind)
      | some ver =>
        match readConfigBody ver ws2 with
        | none => .error .malformedPayloadError
        | some (c, _) => .ok c

/-! The MachineSet reconciler (`machineset` package, `Reconcile` and
`getproviderConfig`).  Go maps are association lists with replace-on-insert
semantics; a `nil` Go map is `none` and an allocated one `some`;
assignment into a `nil` map is the `none` outcome of `goMapAssign`
(a run-time panic in Go). -/

/-- Object metadata of the fetched MachineSet: deletion timestamp
(`none` is the zero timestamp) and the annotation map. -/
structure ObjectMeta where
  name : String := ""
  namespaceName : String := ""
  deletionTimestamp : Option Nat := none
  annotations : Option (List (String × String)) := none
deriving DecidableEq, Repr

/-- The provider spec holds the raw encoded payload; the `Value` pointer of
the raw extension may be nil. -/
structure ProviderSpec where
  value : Option (List Wire) := none
deriving DecidableEq, Repr

structure MachineSpec where
  providerSpec : ProviderSpec := {}
deriving DecidableEq, Repr

structure MachineTemplateSpec where
  spec : MachineSpec := {}
deriving DecidableEq, Repr

structure MachineSetSpec where
  template : MachineTemplateSpec := {}
deriving DecidableEq, Repr

/-- The MachineSet resource being reconciled. -/
structure MachineSet where
  metadata : ObjectMeta := {}
  spec : MachineSetSpec := {}
deriving DecidableEq, Repr

/-- Go's `DeletionTimestamp.IsZero()`. -/
def deletionTimestampIsZero (ms : MachineSet) : Bool :=
  ms.metadata.deletionTimestamp.isNone

/-- Modelled from the spec: the capability descriptor held by the
`InstanceTypes` table (vCPU count, memory size, GPU count); the table's type
declaration is outside the provided source slice, its `VCPU` field name is
taken from the reconciler's use of it. -/
structure InstanceType where
  VCPU : Int
  memoryMiB : Int
  gpuCount : Int
deriving DecidableEq, Repr

/-- The zero value of the capability descriptor. -/
def zeroInstanceType : InstanceType := ⟨0, 0, 0⟩

/-- Go map indexing `InstanceTypes[key]`: a missing key yields the zero
value, never an error. -/
def lookupInstanceType : List (String × InstanceType) → String → InstanceType
  | [], _ => zeroInstanceType
  | (k1, d) :: rest, key => if k1 = key then d else lookupInstanceType rest key

/-- Go map assignment `m[k] = v` on an allocated map: replace in place if
the key exists, else append. -/
def goMapInsert (m : List (String × String)) (k v : String) :
    List (String × String) :=
  match m with
  | [] => [(k, v)]
  | (k1, v1) :: rest =>
    if k1 = k then (k, v) :: rest else (k1, v1) :: goMapInsert rest k v

/-- Go map assignment on a possibly-nil map: assigning into a nil map is a
run-time panic, the `none` outcome. -/
def goMapAssign (m : Option (List (String × String))) (k v : String) :
    Option (List (String × String)) :=
  match m with
  | none => none
  | some l => some (goMapInsert l k v)

/-- Decode error rendered into the message the reconciler wraps. -/
def decodeErrorMessage : DecodeError → String
  | .schemaError apiVer kind =>
    "no codec registered for " ++ apiVer ++ " " ++ kind
  | .malformedPayloadError => "malformed provider config payload"

/-- Modelled from the spec: `DecodeProviderSpec` of the codec package (the
codec implementation lives outside the provided source slice) decodes the
raw payload found inside the provider-spec field, dispatching on the
embedded marker; a nil payload pointer is an error. -/
def DecodeProviderSpec (ps : ProviderSpec) :
    Except String AWSMachineProviderConfig :=
  match ps.value with
  | none => .error "unable to find machine provider config"
  | some payload =>
    match Decode payload with
    | .ok c => .ok c
    | .error e => .error (decodeErrorMessage e)

/-- `getproviderConfig` of the reconciler: decode the machine set's
provider spec, wrapping any failure. -/
def getproviderConfig (machineSet : MachineSet) :
    Except String AWSMachineProviderConfig :=
  match DecodeProviderSpec machineSet.spec.template.spec.providerSpec with
  | .error e => .error ("failed to decode machineSet provider config: " ++ e)
  | .ok c => .ok c

/-- Annotation key for the derived vCPU count. -/
def vCPUKey : String := "machine.openshift.io/vCPU"

/-- Annotation key for the derived memory size. -/
def memoryMbKey : String := "machine.openshift.io/memoryMb"

/-- Annotation key for the derived GPU count. -/
def gpuKey : String := "machine.openshift.io/GPU"

/-- Go's `strconv.FormatInt(i, 10)`: decimal string rendering. -/
def formatInt (i : Int) : String := toString i

/-- The reconciler's nil-check: allocate the annotation map if nil
(`machineSet.Annotations == nil`). -/
def ensureAnnotationsAllocated (ms : MachineSet) : MachineSet :=
  match ms.metadata.annotations with
  | none => { ms with metadata := { ms.metadata with annotations := some [] } }
  | some _ => ms

/-- The three annotation writes of the reconciler, exactly as the source
performs them: all three values are rendered from the descriptor's `VCPU`
field (`strconv.FormatInt(instanceType.VCPU, 10)` on every line). -/
def writeDerivedAnnotations (ms : MachineSet) (ityp : InstanceType) :
    Option MachineSet :=
  match goMapAssign ms.metadata.annotations vCPUKey (formatInt ityp.VCPU) with
  | none => none
  | some a1 =>
    match goMapAssign (some a1) memoryMbKey (formatInt ityp.VCPU) with
    | none => none
    | some a2 =>
      match goMapAssign (some a2) gpuKey (formatInt ityp.VCPU) with
      | none => none
      | some a3 =>
        some { ms with metadata := { ms.metadata with annotations := some a3 } }

/-- controller-runtime's reconcile result value. -/
structure CtrlResult where
  requeue : Bool := false
  requeueAfter : Nat := 0
deriving DecidableEq, Repr

/-- Outcome of the fetch against the external store. -/
inductive FetchResult where
  | found (ms : MachineSet)
  | notFound
  | fetchFailure (e : String)
deriving DecidableEq, Repr

/-- Everything a reconcile run returns and does to the outside: the
controller-runtime result, the returned error, and the patch calls issued
to the store (in order, each carrying the object submitted). -/
structure ReconcileEffects where
  result : CtrlResult
  err : Option String
  patchCalls : List MachineSet
deriving DecidableEq, Repr

/-- controller-runtime requeues a reconcile request when the returned error
is non-nil, when `Requeue` is set, or when `RequeueAfter` is positive; a
`{requeue:false, requeueAfter:0}` result with a nil error is terminal. -/
def causesRequeue (eff : ReconcileEffects) : Bool :=
  eff.err.isSome || eff.result.requeue || decide (eff.result.requeueAfter ≠ 0)

/-- The reconcile loop of `MachineSetReconciler.Reconcile`, with the store
made explicit: `fetched` is what `Client.Get` produced and `patchResponse`
is the error `Client.Patch` would return for the submitted object (`none`
for success).  The `none` outcome of the whole function is a run-time panic
(assignment into a nil map), which the safety claim shows unreachable. -/
def Reconcile (table : List (String × InstanceType)) (fetched : FetchResult)
    (patchResponse : Option String) : Option ReconcileEffects :=
  match fetched with
  | .notFound => some ⟨{}, none, []⟩
  | .fetchFailure e => some ⟨{}, some e, []⟩
  | .found machineSet =>
    if !deletionTimestampIsZero machineSet then some ⟨{}, none, []⟩
    else
      match getproviderConfig machineSet with
      | .error e =>
        some ⟨{}, some ("failed to get providerConfig: " ++ e), []⟩
      | .ok providerConfig =>
        let instanceTypeDesc :=
          lookupInstanceType table providerConfig.instanceType
        let ms1 := ensureAnnotationsAllocated machineSet
        match writeDerivedAnnotations ms1 instanceTypeDesc with
        | none => none
        | some ms2 =>
          match patchResponse with
          | some e =>
            some ⟨{}, some ("failed to patch machineSet: " ++ e), [ms2]⟩
          | none => some ⟨{}, none, [ms2]⟩

/-! The guest cluster scope (`pkg/cloud/scope/guestcluster.go`):
`NewGuestClusterScope`, `PatchObject`, `Close`, `APIServerPort`. -/

/-- Tree of values inside an `unstructured.Unstructured` object. -/
inductive UValue where
  | strV (s : String)
  | natV (n : Nat)
  | boolV (b : Bool)
  | objV (fields : List (String × UValue))
deriving Repr

/-- Field lookup inside an unstructured object node. -/
def lookupField (fields : List (String × UValue)) (key : String) :
    Option UValue :=
  match fields with
  | [] => none
  | (k, v) :: rest => if k = key then some v else lookupField rest key

/-- Walk a path of nested field names. -/
def nestedField : List String → UValue → Option UValue
  | [], v => some v
  | k :: ks, .objV fields =>
    match lookupField fields k with
    | some v => nestedField ks v
    | none => none
  | _ :: _, _ => none

/-- `unstructured.NestedString`: the value at the path, when it exists and
is a string (a missing path and a wrongly-typed value both lead the caller
into its error branch, so they collapse to `none`). -/
def NestedString (v : UValue) (path : List String) : Option String :=
  match nestedField path v with
  | some (.strV s) => some s
  | _ => none

/-- An unstructured API object together with the resource version token the
store stamped on it when it was read. -/
structure Unstructured where
  object : UValue
  resourceVersion : Nat
deriving Repr

/-- The cluster network configuration; the port pointer may be nil. -/
structure ClusterNetwork where
  apiServerPort : Option Int := none
deriving Repr

structure ClusterSpec where
  clusterNetwork : Option ClusterNetwork := none
deriving Repr

/-- The owning CAPI cluster object. -/
structure Cluster where
  name : String := ""
  namespaceName : String := ""
  uid : String := ""
  spec : ClusterSpec := {}
deriving Repr

/-- A named service-endpoint override passed to the session factory. -/
structure ServiceEndpoint where
  serviceID : String
  url : String
deriving DecidableEq, Repr

/-- A region-bound AWS session handle. -/
structure Session where
  region : String
deriving DecidableEq, Repr

/-- A logger handle; `klogr.New()` is the default one. -/
structure Logger where
deriving DecidableEq, Repr

def defaultLogger : Logger := {}

/-- The patch helper: captures a deep snapshot of the target object at
scope construction time (`patch.NewHelper`). -/
structure PatchHelper where
  before : Unstructured
deriving Repr

/-- Input parameters of `NewGuestClusterScope`; Go pointers are `Option`. -/
structure GuestClusterScopeParams where
  logger : Option Logger := none
  cluster : Option Cluster := none
  guestCluster : Option Unstructured := none
  controllerName : String := ""
  endpoints : List ServiceEndpoint := []
deriving Repr

/-- The per-reconcile scope built by `NewGuestClusterScope`. -/
structure GuestClusterScope where
  logger : Logger
  cluster : Cluster
  guestCluster : Unstructured
  patchHelper : PatchHelper
  session : Session
  controllerName : String
deriving Repr

/-- `NewGuestClusterScope`, with the session factory (`sessionForRegion`,
defined elsewhere in the scope package) passed explicitly and its
invocation recorded in the boolean component of the result. -/
def NewGuestClusterScope
    (sessionForRegion : String → List ServiceEndpoint → Except String Session)
    (params : GuestClusterScopeParams) :
    Except String GuestClusterScope × Bool :=
  match params.cluster with
  | none => (.error "failed to generate new scope from nil Cluster", false)
  | some cluster =>
    match params.guestCluster with
    | none => (.error "failed to generate new scope from nil GuestCluster", false)
    | some guestCluster =>
      let logger := params.logger.getD defaultLogger
      match NestedString guestCluster.object ["spec", "region"] with
      | none => (.error "error getting region", false)
      | some region =>
        match sessionForRegion region params.endpoints with
        | .error e => (.error ("failed to create aws session: " ++ e), true)
        | .ok session =>
          (.ok { logger := logger
                 cluster := cluster
                 guestCluster := guestCluster
                 patchHelper := { before := guestCluster }
                 session := session
                 controllerName := params.controllerName }, true)

/-- State of the external store as far as `Close` is concerned: the current
resource version token and the stored object. -/
structure GuestStore where
  resourceVersion : Nat
  obj : UValue
deriving Repr

/-- Failure taxonomy of the patch path per the spec. -/
inductive CloseError where
  | conflictError
  | otherError (e : String)
deriving DecidableEq, Repr

/-- `PatchObject` as the source defines it: the entire patch computation is
commented out and the body is `return nil` — no store interaction, no
error. -/
def PatchObject (s : GuestClusterScope) (store : GuestStore) :
    Option CloseError × GuestStore :=
  (none, store)

/-- `Close` delegates to `PatchObject`. -/
def Close (s : GuestClusterScope) (store : GuestStore) :
    Option CloseError × GuestStore :=
  PatchObject s store

/-- The optimistic-concurrency conflict condition of the spec: the store's
version token has advanced past the one captured in the `PatchBase`
snapshot. -/
def versionConflict (s : GuestClusterScope) (store : GuestStore) : Bool :=
  store.resourceVersion != s.patchHelper.before.resourceVersion

/-- Modelled from the spec, for the refinement comparison only (this is the
spec's description of `Close`, not the source's code): compute the merge
patch between the `PatchBase` snapshot and the live target and apply it
under the optimistic precondition; a version conflict yields
`ConflictError`. -/
def specClose (s : GuestClusterScope) (store : GuestStore) :
    Option CloseError × GuestStore :=
  if versionConflict s store then (some .conflictError, store)
  else (none, { resourceVersion := store.resourceVersion + 1
                obj := s.guestCluster.object })

/-- `APIServerPort`: the pointed-to port when both the cluster network and
its port pointer are non-nil, else the default 6443. -/
def APIServerPort (s : GuestClusterScope) : Int :=
  match s.cluster.spec.clusterNetwork with
  | some cn =>
    match cn.apiServerPort with
    | some p => p
    | none => 6443
  | none => 6443

/-! Derived forms and concrete inputs used by the theorems below. -/

/-- Go map read `m[k]` as an option, for reasoning about inserts. -/
def goMapGet : List (String × String) → String → Option String
  | [], _ => none
  | (k1, v1) :: rest, k => if k1 = k then some v1 else goMapGet rest k

/-- The three annotation writes of the reconciler as one map transformer:
vCPU, then memoryMb, then GPU. -/
def writeThree (m : List (String × String)) (a b c : String) :
    List (String × String) :=
  goMapInsert (goMapInsert (goMapInsert m vCPUKey a) memoryMbKey b) gpuKey c

/-- Replace the annotation map of a machine set. -/
def setAnnotations (ms : MachineSet) (a : List (String × String)) : MachineSet :=
  { ms with metadata := { ms.metadata with annotations := some a } }

/-- The machine set the reconciler submits to `Client.Patch` on the success
path: the fetched object with the three derived annotations written (all
three rendered from the `VCPU` field, as the source does). -/
def derivedMachineSet (table : List (String × InstanceType)) (ms : MachineSet)
    (pc : AWSMachineProviderConfig) : MachineSet :=
  let d := lookupInstanceType table pc.instanceType
  setAnnotations ms (writeThree (ms.metadata.annotations.getD [])
    (formatInt d.VCPU) (formatInt d.VCPU) (formatInt d.VCPU))

/-- A concrete provider configuration with instance type `m4.xlarge`. -/
def exampleProviderConfig : AWSMachineProviderConfig where
  ami := ⟨[⟨"tag:image_stage", ["base"]⟩]⟩
  credentialsSecret := some ⟨"aws-credentials"⟩
  instanceType := "m4.xlarge"
  placement := ⟨"us-east-1", "us-east-1a"⟩
  subnet := ⟨[⟨"tag:Name", ["cluster-worker-*"]⟩]⟩
  tags := [⟨"host-type", "master"⟩]
  securityGroups := [⟨[⟨"tag:Name", ["cluster-*"]⟩]⟩]
  publicIP := some true
  userDataSecret := none

/-- A concrete machine set whose provider-spec payload encodes
`exampleProviderConfig` under the `v1beta1` schema. -/
def exampleMachineSet : MachineSet where
  metadata := { name := "ms", namespaceName := "default" }
  spec := ⟨⟨⟨⟨some (Encode .v1beta1 exampleProviderConfig)⟩⟩⟩⟩

/-- A capability table carrying the spec's `m4.xlarge` example entry
`{vCPU:4, memoryMiB:16384, gpuCount:0}`. -/
def m4xlargeTable : List (String × InstanceType) :=
  [("m4.xlarge", ⟨4, 16384, 0⟩)]

/-- The object the reconciler patches for the concrete example. -/
def exampleDerived : MachineSet :=
  derivedMachineSet m4xlargeTable exampleMachineSet exampleProviderConfig

/-- A concrete machine set whose deletion timestamp is set. -/
def deletedMachineSet : MachineSet where
  metadata := { name := "ms", deletionTimestamp := some 5 }

/-- A concrete guest cluster object carrying a `spec.region` string. -/
def exampleGuest : Unstructured where
  object := .objV [("spec", .objV [("region", .strV "us-east-1")])]
  resourceVersion := 7

/-- A concrete scope over `exampleGuest` with the given owning cluster. -/
def baseScope (c : Cluster) : GuestClusterScope where
  logger := {}
  cluster := c
  guestCluster := exampleGuest
  patchHelper := { before := exampleGuest }
  session := { region := "us-east-1" }
  controllerName := "awscluster"

/-- A scope whose owning cluster declares API server port 8443. -/
def scopeWithPort : GuestClusterScope :=
  baseScope { spec := { clusterNetwork := some { apiServerPort := some 8443 } } }

/-- A scope whose owning cluster has no cluster network. -/
def scopeNoNetwork : GuestClusterScope :=
  baseScope {}

/-- A scope whose cluster network has a nil port pointer. -/
def scopeNilPort : GuestClusterScope :=
  baseScope { spec := { clusterNetwork := some { apiServerPort := none } } }

/-- A store whose version token has advanced past the scope's `PatchBase`
snapshot (version 8 against snapshot version 7). -/
def conflictStore : GuestStore where
  resourceVersion := 8
  obj := .objV []

/-- A session factory that always succeeds. -/
def okSessionFactory : String → List ServiceEndpoint → Except String Session :=
  fun r _ => .ok { region := r }

/-- Parameters whose owning cluster reference is nil. -/
def nilClusterParams : GuestClusterScopeParams where
  guestCluster := some exampleGuest

/-- Parameters whose target guest cluster is nil. -/
def nilGuestParams : GuestClusterScopeParams where
  cluster := some {}

/-! Codec round-trip lemmas: each reader consumes exactly what the matching
encoder produced and returns the rest of the stream. -/

theorem readString_enc (s : String) (rest : List Wire) :
    readString (encString s ++ rest) = some (s, rest) := rfl

theorem readBool_enc (b : Bool) (rest : List Wire) :
    readBool (encBool b ++ rest) = some (b, rest) := rfl

theorem readCount_enc {α : Type} (rd : List Wire → Option (α × List Wire))
    (enc : α → List Wire)
    (h : ∀ a rest, rd (enc a ++ rest) = some (a, rest)) :
    ∀ (l : List α) (rest : List Wire),
      readCount rd l.length ((l.map enc).flatten ++ rest) = some (l, rest) := by
  intro l
  induction l with
  | nil => intro rest; simp [readCount]
  | cons a l ih =>
    intro rest
    simp [readCount, List.append_assoc, h, ih]

theorem readList_enc {α : Type} (rd : List Wire → Option (α × List Wire))
    (enc : α → List Wire)
    (h : ∀ a rest, rd (enc a ++ rest) = some (a, rest))
    (l : List α) (rest : List Wire) :
    readList rd (encList enc l ++ rest) = some (l, rest) := by
  simp [readList, encList, readNat, readCount_enc rd enc h]

theorem readOption_enc {α : Type} (rd : List Wire → Option (α × List Wire))
    (enc : α → List Wire)
    (h : ∀ a rest, rd (enc a ++ rest) = some (a, rest))
    (o : Option α) (rest : List Wire) :
    readOption rd (encOption enc o ++ rest) = some (o, rest) := by
  cases o with
  | none => simp [readOption, encOption, readNat]
  | some a => simp [readOption, encOption, readNat, h]

theorem readLocalObjectReference_enc (r : LocalObjectReference)
    (rest : List Wire) :
    readLocalObjectReference (encLocalObjectReference r ++ rest) =
      some (r, rest) := by
  cases r
  simp [readLocalObjectReference, encLocalObjectReference, encString, readString]

theorem readFilter_enc (f : Filter) (rest : List Wire) :
    readFilter (encFilter f ++ rest) = some (f, rest) := by
  cases f
  simp [readFilter, encFilter, encString, List.append_assoc, readString,
    readList_enc readString encString readString_enc]

theorem readAWSResourceReference_enc (r : AWSResourceReference)
    (rest : List Wire) :
    readAWSResourceReference (encAWSResourceReference r ++ rest) =
      some (r, rest) := by
  cases r
  simp [readAWSResourceReference, encAWSResourceReference,
    readList_enc readFilter encFilter readFilter_enc]

theorem readPlacement_enc (p : Placement) (rest : List Wire) :
    readPlacement (encPlacement p ++ rest) = some (p, rest) := by
  cases p
  simp [readPlacement, encPlacement, encString, readString]

theorem readTagSpecification_enc (t : TagSpecification) (rest : List Wire) :
    readTagSpecification (encTagSpecification t ++ rest) = some (t, rest) := by
  cases t
  simp [readTagSpecification, encTagSpecification, encString, readString]

theorem readConfigBody_enc (ver : SchemaVersion) (c : AWSMachineProviderConfig)
    (rest : List Wire) :
    readConfigBody ver (encConfigBody ver c ++ rest) = some (c, rest) := by
  cases ver <;> cases c <;>
    simp [readConfigBody, encConfigBody, encString, List.append_assoc,
      readString,
      readAWSResourceReference_enc, readPlacement_enc,
      readOption_enc readLocalObjectReference encLocalObjectReference
        readLocalObjectReference_enc,
      readOption_enc readBool encBool readBool_enc,
      readList_enc readTagSpecification encTagSpecification
        readTagSpecification_enc,
      readList_enc readAWSResourceReference encAWSResourceReference
        readAWSResourceReference_enc]

theorem versionOfMarker_self (ver : SchemaVersion) :
    versionOfMarker (apiVersionString ver) kindString = some ver := by
  cases ver <;> rfl

/-! Go map lemmas: reads after replace-on-insert writes, and the
idempotence of rewriting a key with the value it already holds. -/

theorem goMapGet_insert_self (m : List (String × String)) (k v : String) :
    goMapGet (goMapInsert m k v) k = some v := by
  induction m with
  | nil => simp [goMapInsert, goMapGet]
  | cons p rest ih =>
    obtain ⟨k1, v1⟩ := p
    by_cases h : k1 = k
    · subst h; simp [goMapInsert, goMapGet]
    · simp [goMapInsert, goMapGet, h, ih]

theorem goMapGet_insert_other (m : List (String × String)) (k k' v : String)
    (h : k' ≠ k) :
    goMapGet (goMapInsert m k v) k' = goMapGet m k' := by
  induction m with
  | nil => simp [goMapInsert, goMapGet, Ne.symm h]
  | cons p rest ih =>
    obtain ⟨k1, v1⟩ := p
    by_cases h1 : k1 = k
    · subst h1
      simp [goMapInsert, goMapGet, h, Ne.symm h]
    · by_cases h2 : k1 = k'
      · subst h2; simp [goMapInsert, goMapGet, h1]
      · simp [goMapInsert, goMapGet, h1, h2, ih]

theorem goMapInsert_get_eq (m : List (String × String)) (k v : String)
    (h : goMapGet m k = some v) : goMapInsert m k v = m := by
  induction m with
  | nil => simp [goMapGet] at h
  | cons p rest ih =>
    obtain ⟨k1, v1⟩ := p
    by_cases h1 : k1 = k
    · subst h1
      simp [goMapGet] at h
      simp [goMapInsert, h]
    · simp [goMapGet, h1] at h
      simp [goMapInsert, h1, ih h]

theorem writeThree_get_vCPU (m : List (String × String)) (a b c : String) :
    goMapGet (writeThree m a b c) vCPUKey = some a := by
  unfold writeThree
  rw [goMapGet_insert_other _ _ _ _ (by decide),
    goMapGet_insert_other _ _ _ _ (by decide), goMapGet_insert_self]

theorem writeThree_get_memoryMb (m : List (String × String)) (a b c : String) :
    goMapGet (writeThree m a b c) memoryMbKey = some b := by
  unfold writeThree
  rw [goMapGet_insert_other _ _ _ _ (by decide), goMapGet_insert_self]

theorem writeThree_get_gpu (m : List (String × String)) (a b c : String) :
    goMapGet (writeThree m a b c) gpuKey = some c := by
  unfold writeThree
  rw [goMapGet_insert_self]

theorem writeThree_idem (m : List (String × String)) (a b c : String) :
    writeThree (writeThree m a b c) a b c = writeThree m a b c := by
  conv_lhs => rw [writeThree]
  rw [goMapInsert_get_eq _ _ _ (writeThree_get_vCPU m a b c),
    goMapInsert_get_eq _ _ _ (writeThree_get_memoryMb m a b c),
    goMapInsert_get_eq _ _ _ (writeThree_get_gpu m a b c)]

/-! Reconcile normal-form lemmas. -/

theorem writeDerived_ensure (ms : MachineSet) (d : InstanceType) :
    writeDerivedAnnotations (ensureAnnotationsAllocated ms) d =
      some (setAnnotations ms (writeThree (ms.metadata.annotations.getD [])
        (formatInt d.VCPU) (formatInt d.VCPU) (formatInt d.VCPU))) := by
  obtain ⟨⟨nm, nsp, dt, ann⟩, sp⟩ := ms
  cases ann <;>
    simp [ensureAnnotationsAllocated, writeDerivedAnnotations, goMapAssign,
      writeThree, setAnnotations]

theorem Reconcile_found_eq (table : List (String × InstanceType))
    (ms : MachineSet) (pc : AWSMachineProviderConfig)
    (hdel : deletionTimestampIsZero ms = true)
    (hpc : getproviderConfig ms = .ok pc) :
    Reconcile table (.found ms) none =
      some ⟨{}, none, [derivedMachineSet table ms pc]⟩ := by
  simp [Reconcile, hdel, hpc, writeDerived_ensure, derivedMachineSet]

theorem deletionTimestampIsZero_derived (table : List (String × InstanceType))
    (ms : MachineSet) (pc : AWSMachineProviderConfig) :
    deletionTimestampIsZero (derivedMachineSet table ms pc) =
      deletionTimestampIsZero ms := rfl

theorem getproviderConfig_derived (table : List (String × InstanceType))
    (ms : MachineSet) (pc : AWSMachineProviderConfig) :
    getproviderConfig (derivedMachineSet table ms pc) =
      getproviderConfig ms := rfl

theorem derived_fixed (table : List (String × InstanceType)) (ms : MachineSet)
    (pc : AWSMachineProviderConfig) :
    derivedMachineSet table (derivedMachineSet table ms pc) pc =
      derivedMachineSet table ms pc := by
  obtain ⟨⟨nm, nsp, dt, ann⟩, sp⟩ := ms
  simp [derivedMachineSet, setAnnotations, writeThree_idem]

theorem lookupInstanceType_miss (table : List (String × InstanceType))
    (key : String) (hmiss : ∀ p ∈ table, p.1 ≠ key) :
    lookupInstanceType table key = zeroInstanceType := by
  induction table with
  | nil => rfl
  | cons p rest ih =>
    obtain ⟨k1, d⟩ := p
    simp [lookupInstanceType, hmiss (k1, d) (by simp)]
    exact ih fun q hq => hmiss q (by simp [hq])

theorem formatInt_zero : formatInt 0 = "0" := rfl

/-! Claim theorems. -/

/-- C2: for every valid provider-config value and every schema version the
codec supports, decoding the payload produced by encoding the value yields
the value back (semantic round trip). -/
theorem decode_encode_roundtrip (ver : SchemaVersion)
    (v : AWSMachineProviderConfig) : Decode (Encode ver v) = .ok v := by
  have hbody := readConfigBody_enc ver v []
  rw [List.append_nil] at hbody
  simp [Decode, Encode, encString, readString, versionOfMarker_self, hbody]

/-- C4: reconciling a fetched resource whose deletion timestamp is set
stops right after the deletion check with a terminal no-requeue, no-error
result, performing zero patch calls. -/
theorem reconcile_deleted_terminal (table : List (String × InstanceType))
    (patchResponse : Option String) (ms : MachineSet)
    (h : deletionTimestampIsZero ms = false) :
    Reconcile table (.found ms) patchResponse = some ⟨{}, none, []⟩ ∧
    causesRequeue ⟨{}, none, []⟩ = false := by
  exact ⟨by simp [Reconcile, h], rfl⟩

/-- C4 witness: the concrete deleted machine set takes the terminal
branch. -/
theorem reconcile_deleted_terminal_witness :
    Reconcile [] (.found deletedMachineSet) none = some ⟨{}, none, []⟩ ∧
    causesRequeue ⟨{}, none, []⟩ = false :=
  reconcile_deleted_terminal [] none deletedMachineSet rfl

/-- C5: a not-found fetch yields a terminal `{requeue:false, error:nil}`
result with no patch attempted; any other fetch error yields a result that
carries the error and therefore causes a requeue, again with no patch. -/
theorem reconcile_fetch_outcomes (table : List (String × InstanceType))
    (patchResponse : Option String) (e : String) :
    Reconcile table .notFound patchResponse = some ⟨{}, none, []⟩ ∧
    causesRequeue ⟨{}, none, []⟩ = false ∧
    Reconcile table (.fetchFailure e) patchResponse = some ⟨{}, some e, []⟩ ∧
    causesRequeue ⟨{}, some e, []⟩ = true :=
  ⟨rfl, rfl, rfl, rfl⟩

/-- C9: the reconciler allocates the annotation map before the three
derived-key writes, so the writes never assign into a nil map and the whole
loop is total (the `none` outcome modelling a nil-map-assignment panic is
unreachable). -/
theorem reconcile_total :
    (∀ ms d,
      (writeDerivedAnnotations (ensureAnnotationsAllocated ms) d).isSome = true) ∧
    (∀ table fetched patchResponse,
      (Reconcile table fetched patchResponse).isSome = true) := by
  constructor
  · intro ms d
    rw [writeDerived_ensure]
    rfl
  · intro table fetched patchResponse
    cases fetched with
    | notFound => rfl
    | fetchFailure e => rfl
    | found ms =>
      cases hdel : deletionTimestampIsZero ms with
      | false => simp [Reconcile, hdel]
      | true =>
        cases hpc : getproviderConfig ms with
        | error e => simp [Reconcile, hdel, hpc]
        | ok pc =>
          cases patchResponse <;>
            simp [Reconcile, hdel, hpc, writeDerived_ensure]

/-- C8: a second reconcile of the object the first run patched computes the
same annotation set, so the second run patches the identical object (empty
delta on the annotation keys). -/
theorem reconcile_idempotent (table : List (String × InstanceType))
    (ms : MachineSet) (eff : ReconcileEffects)
    (h : Reconcile table (.found ms) none = some eff)
    (ms2 : MachineSet) (h2 : eff.patchCalls = [ms2]) :
    Reconcile table (.found ms2) none = some ⟨{}, none, [ms2]⟩ := by
  cases hdel : deletionTimestampIsZero ms with
  | false =>
    have hre : Reconcile table (.found ms) none = some ⟨{}, none, []⟩ := by
      simp [Reconcile, hdel]
    rw [h] at hre
    injection hre with h3
    rw [h3] at h2
    simp at h2
  | true =>
    cases hpc : getproviderConfig ms with
    | error e =>
      have hre : Reconcile table (.found ms) none =
          some ⟨{}, some ("failed to get providerConfig: " ++ e), []⟩ := by
        simp [Reconcile, hdel, hpc]
      rw [h] at hre
      injection hre with h3
      rw [h3] at h2
      simp at h2
    | ok pc =>
      have hre := Reconcile_found_eq table ms pc hdel hpc
      rw [h] at hre
      injection hre with h3
      rw [h3] at h2
      have hms2 : ms2 = derivedMachineSet table ms pc := by
        simpa using h2.symm
      subst hms2
      have hdel2 : deletionTimestampIsZero (derivedMachineSet table ms pc) = true := by
        rw [deletionTimestampIsZero_derived]
        exact hdel
      have hpc2 : getproviderConfig (derivedMachineSet table ms pc) = .ok pc := by
        rw [getproviderConfig_derived]
        exact hpc
      rw [Reconcile_found_eq table _ pc hdel2 hpc2, derived_fixed]

/-- C8 witness: re-running the reconcile on the concrete patched object
patches the identical object again. -/
theorem reconcile_idempotent_witness :
    Reconcile m4xlargeTable (.found exampleDerived) none =
      some ⟨{}, none, [exampleDerived]⟩ :=
  reconcile_idempotent m4xlargeTable exampleMachineSet
    ⟨{}, none, [exampleDerived]⟩
    (Reconcile_found_eq m4xlargeTable exampleMachineSet exampleProviderConfig
      rfl (by rfl))
    exampleDerived rfl

/-- C7: an instance type with no entry in the capability table yields the
zero-valued descriptor, never an error, and the reconcile proceeds to write
the annotations derived from the zero descriptor. -/
theorem reconcile_unknown_instance_type (table : List (String × InstanceType))
    (ms : MachineSet) (pc : AWSMachineProviderConfig)
    (hdel : deletionTimestampIsZero ms = true)
    (hpc : getproviderConfig ms = .ok pc)
    (hmiss : ∀ p ∈ table, p.1 ≠ pc.instanceType) :
    lookupInstanceType table pc.instanceType = zeroInstanceType ∧
    Reconcile table (.found ms) none =
      some ⟨{}, none, [derivedMachineSet table ms pc]⟩ ∧
    (derivedMachineSet table ms pc).metadata.annotations =
      some (writeThree (ms.metadata.annotations.getD []) "0" "0" "0") := by
  have hz := lookupInstanceType_miss table pc.instanceType hmiss
  refine ⟨hz, Reconcile_found_eq table ms pc hdel hpc, ?_⟩
  simp [derivedMachineSet, setAnnotations, hz, zeroInstanceType, formatInt_zero]

/-- C7 witness: the concrete machine set against the empty capability
table. -/
theorem reconcile_unknown_instance_type_witness :
    lookupInstanceType [] exampleProviderConfig.instanceType = zeroInstanceType ∧
    Reconcile [] (.found exampleMachineSet) none =
      some ⟨{}, none, [derivedMachineSet [] exampleMachineSet exampleProviderConfig]⟩ ∧
    (derivedMachineSet [] exampleMachineSet exampleProviderConfig).metadata.annotations =
      some (writeThree (exampleMachineSet.metadata.annotations.getD []) "0" "0" "0") :=
  reconcile_unknown_instance_type [] exampleMachineSet exampleProviderConfig
    rfl (by rfl) (by simp)

/-- C1: at the spec's own example input (instance type `m4.xlarge` with
capability entry `{vCPU:4, memoryMiB:16384, gpuCount:0}`) the reconciler
renders ALL THREE annotation values from the descriptor's `VCPU` field, so
the memoryMb and GPU annotations read "4" instead of "16384" and "0" — the
copy-paste defect the spec flags. -/
theorem reconcile_m4xlarge_all_values_from_vcpu :
    lookupInstanceType m4xlargeTable "m4.xlarge" = ⟨4, 16384, 0⟩ ∧
    Reconcile m4xlargeTable (.found exampleMachineSet) none =
      some ⟨{}, none, [setAnnotations exampleMachineSet
        [(vCPUKey, "4"), (memoryMbKey, "4"), (gpuKey, "4")]]⟩ :=
  ⟨rfl, rfl⟩

/-- C3 counterexample: at a concrete scope and store whose version token
has advanced past the `PatchBase` snapshot (a version conflict), `Close`
succeeds without touching the store and returns no `ConflictError`,
contradicting the claim; the spec-following definition returns
`ConflictError` there. -/
theorem close_conflict_counterexample :
    versionConflict (baseScope {}) conflictStore = true ∧
    Close (baseScope {}) conflictStore = (none, conflictStore) ∧
    specClose (baseScope {}) conflictStore = (some .conflictError, conflictStore) :=
  ⟨rfl, rfl, rfl⟩

/-- C3 amended: `Close` delegates to `PatchObject`, whose patch computation
is entirely commented out — it performs no store interaction, leaves the
store unchanged and always returns nil, regardless of any version
conflict. -/
theorem close_is_noop (s : GuestClusterScope) (store : GuestStore) :
    Close s store = (none, store) ∧ PatchObject s store = (none, store) :=
  ⟨rfl, rfl⟩

/-- C6: with a nil owning-cluster reference or a nil guest cluster,
`NewGuestClusterScope` returns an error and no scope, and the session
factory is never invoked (the boolean invocation flag stays false). -/
theorem newScope_nil_inputs
    (sessionForRegion : String → List ServiceEndpoint → Except String Session)
    (params : GuestClusterScopeParams)
    (h : params.cluster = none ∨ params.guestCluster = none) :
    ∃ e, NewGuestClusterScope sessionForRegion params = (.error e, false) := by
  cases h with
  | inl h1 =>
    exact ⟨"failed to generate new scope from nil Cluster",
      by simp [NewGuestClusterScope, h1]⟩
  | inr h2 =>
    cases hc : params.cluster with
    | none =>
      exact ⟨"failed to generate new scope from nil Cluster",
        by simp [NewGuestClusterScope, hc]⟩
    | some c =>
      exact ⟨"failed to generate new scope from nil GuestCluster",
        by simp [NewGuestClusterScope, hc, h2]⟩

/-- C6 witness: concrete parameter sets with a nil cluster and a nil guest
cluster. -/
theorem newScope_nil_inputs_witness :
    (∃ e, NewGuestClusterScope okSessionFactory nilClusterParams =
      (.error e, false)) ∧
    (∃ e, NewGuestClusterScope okSessionFactory nilGuestParams =
      (.error e, false)) :=
  ⟨newScope_nil_inputs okSessionFactory nilClusterParams (Or.inl rfl),
   newScope_nil_inputs okSessionFactory nilGuestParams (Or.inr rfl)⟩

/-- C10: `APIServerPort` returns the pointed-to port when the cluster
network and its port pointer are both non-nil, and 6443 otherwise; it is a
total function, so it never fails or dereferences nil. -/
theorem apiServerPort_spec (s : GuestClusterScope) :
    (∀ cn p, s.cluster.spec.clusterNetwork = some cn →
      cn.apiServerPort = some p → APIServerPort s = p) ∧
    (s.cluster.spec.clusterNetwork = none → APIServerPort s = 6443) ∧
    (∀ cn, s.cluster.spec.clusterNetwork = some cn →
      cn.apiServerPort = none → APIServerPort s = 6443) := by
  refine ⟨?_, ?_, ?_⟩
  · intro cn p h1 h2
    simp [APIServerPort, h1, h2]
  · intro h1
    simp [APIServerPort, h1]
  · intro cn h1 h2
    simp [APIServerPort, h1, h2]

/-- C10 witness: a declared port is returned, and both nil cases default
to 6443. -/
theorem apiServerPort_spec_witness :
    APIServerPort scopeWithPort = 8443 ∧
    APIServerPort scopeNoNetwork = 6443 ∧
    APIServerPort scopeNilPort = 6443 :=
  ⟨(apiServerPort_spec scopeWithPort).1 { apiServerPort := some 8443 } 8443
      rfl rfl,
   (apiServerPort_spec scopeNoNetwork).2.1 rfl,
   (apiServerPort_spec scopeNilPort).2.2 { apiServerPort := none } rfl rfl⟩

end CAPA
